import Mathlib

/-!
Verification of the RenderToMySQL bring-up controller.

The repository's three scripts (`mysql_setup.py`, `your_app.py`, `app.py`)
install and start a MySQL server without root, create an application
database/user, and persist connection credentials.  This file is a shallow
embedding of the parts of that code the specification's claims are about:

* Python strings on which character-level operations matter (path joining,
  `os.path.abspath` normalisation, `str.startswith`) are modelled as `List Char`
  (`PyStr`); opaque strings (passwords, database names, command output) stay
  `String`.
* A completed external command is a `CmdResult` (exit code and captured
  stdout); the surrounding functions are translated statement by statement.
* Filesystem facts a function branches on (directory exists, marker file
  present, socket appeared) are explicit boolean inputs or per-iteration
  observation traces; process-liveness polling is a trace `Nat → ProbeObs`.
* Bounded `for i in range(n)` polling loops become structural recursion on the
  remaining fuel `n`.

Every definition is computable so the theorems' witnesses and counterexamples
evaluate on concrete inputs by `decide`/`rfl`.
-/

/-! ## Python string and path model (os.path.join / os.path.abspath) -/

/-- A Python `str` at character granularity. -/
abbrev PyStr := List Char

/-- Python `s.split("/")`: splits on every slash, keeping empty segments
(`"".split("/") == [""]`, `"/a".split("/") == ["", "a"]`). -/
def splitSlash : PyStr → List PyStr
  | [] => [[]]
  | c :: rest =>
    let r := splitSlash rest
    if c = '/' then [] :: r
    else
      match r with
      | [] => [[c]]
      | p :: ps => (c :: p) :: ps

/-- Python `"/".join(parts)`. -/
def joinSlash : List PyStr → PyStr
  | [] => []
  | [p] => p
  | p :: ps => p ++ '/' :: joinSlash ps

/-- The normalisation inside `os.path.abspath` on an absolute path: empty and
`"."` segments are dropped, `".."` removes the previous segment (and is a no-op
at the root, as in `os.path.normpath`). -/
def resolveParts (parts : List PyStr) : List PyStr :=
  parts.foldl (fun acc p =>
    if p = [] then acc
    else if p = ['.'] then acc
    else if p = ['.', '.'] then acc.dropLast
    else acc ++ [p]) []

/-- `os.path.abspath` restricted to absolute inputs (every path the extraction
check builds is absolute, since `INSTALL_DIR` is absolute). -/
def abspath (s : PyStr) : PyStr :=
  '/' :: joinSlash (resolveParts (splitSlash s))

/-- `os.path.join(a, b)` for one argument pair: an absolute `b` discards `a`,
otherwise the parts are joined with exactly one slash. -/
def pyJoin (a b : PyStr) : PyStr :=
  if b.head? = some '/' then b
  else if a.getLast? = some '/' then a ++ b
  else a ++ '/' :: b

/-- Python `str.strip()` (whitespace from both ends) on the character list. -/
def pyStripChars (s : PyStr) : PyStr :=
  ((s.dropWhile Char.isWhitespace).reverse.dropWhile Char.isWhitespace).reverse

/-- Python `str.strip()` lifted back to `String`. -/
def pyStrip (s : String) : String :=
  ⟨pyStripChars s.data⟩

/-! ## Shared process-spawn model -/

/-- Where a spawned child's standard stream is redirected. `appendFile` is a
log file opened with mode `"a"`; `devnull` is `subprocess.DEVNULL`. -/
inductive StreamTarget
  | appendFile (path : String)
  | devnull
deriving DecidableEq, Repr

/-- The redirections a `subprocess.Popen` call installs for the child. -/
structure SpawnInfo where
  stdoutTarget : StreamTarget
  stderrTarget : StreamTarget
deriving DecidableEq, Repr

namespace MysqlSetup

/-! ## mysql_setup.py -/

/-- A completed `subprocess.run` invocation: the command's exit code and its
captured standard output (`text=True`). -/
structure CmdResult where
  exitCode : Nat
  stdout : String
deriving DecidableEq, Repr

/-- `run_command` (mysql_setup.py lines 17-32) applied to a command that ran to
completion.  `subprocess.run(..., check=check)` raises `CalledProcessError`
exactly when `check` is set and the exit code is non-zero; `run_command`
catches that and returns `None`.  Otherwise it returns `result.stdout.strip()`
when capturing, and `None` when not. -/
def run_command (res : CmdResult) (check : Bool) (capture : Bool) : Option String :=
  if check = true ∧ res.exitCode ≠ 0 then
    none
  else if capture then some (pyStrip res.stdout) else none

/-- `download_mysql` (lines 39-77).  Inputs: whether `~/mysql` already exists,
the results of the `curl`, `wget` and `tar -xf` commands, and whether the tar
file exists after the curl attempt.  The function returns `mysql_dir` on every
path; no command failure stops it (`run_command` swallows
`CalledProcessError`). -/
def download_mysql (home : String) (mysqlDirExists : Bool) (curlRes : CmdResult)
    (tarFileExists : Bool) (wgetRes tarRes : CmdResult) : String :=
  let mysql_dir := home ++ "/mysql"
  if mysqlDirExists then mysql_dir
  else
    let _ := run_command curlRes false true
    let _ := if tarFileExists then none else run_command wgetRes true true
    let _ := run_command tarRes true true
    mysql_dir

/-- The state of `~/mysql/data` that `initialize_mysql` branches on:
`os.path.exists(data_dir) and os.listdir(data_dir)`. -/
structure DataDirState where
  dirExists : Bool
  nonEmpty : Bool
deriving DecidableEq, Repr

/-- `initialize_mysql` (lines 79-109).  When the data directory exists and is
non-empty it returns at once; otherwise it runs `mysqld --initialize-insecure`
(with `check=False`, so a failure is silent) and `chmod`.  Returns
`(data_dir, state after the call, whether the bootstrap command ran)`.
`initPopulates` is whether the external bootstrap command leaves the directory
non-empty (the server's documented effect, outside this repository). -/
def initialize_mysql (mysql_dir : String) (st : DataDirState) (initPopulates : Bool) :
    String × DataDirState × Bool :=
  if st.dirExists && st.nonEmpty then
    (mysql_dir ++ "/data", st, false)
  else
    (mysql_dir ++ "/data", ⟨true, initPopulates⟩, true)

/-- One line of a rendered `my.cnf` configuration artifact. -/
inductive CnfLine
  | blank
  | sectionHead (name : String)
  | kv (key value : String)
  | flag (name : String)
deriving DecidableEq, Repr

/-- A `CnfLine` as the text `start_mysql_server` writes. -/
def renderCnfLine : CnfLine → String
  | .blank => ""
  | .sectionHead n => "[" ++ n ++ "]"
  | .kv k v => k ++ "=" ++ v
  | .flag n => n

/-- A whole configuration artifact as the written text. -/
def renderCnf (ls : List CnfLine) : String :=
  String.intercalate "\n" (ls.map renderCnfLine) ++ "\n"

/-- The `my.cnf` content `start_mysql_server` writes before the first start
(lines 128-141), line by line. -/
def start_mysql_server_cnf (data_dir socket_file pid_file log_file : String)
    (port : Nat) : List CnfLine :=
  [ .blank, .sectionHead "mysqld",
    .kv "datadir" data_dir, .kv "socket" socket_file, .kv "pid-file" pid_file,
    .kv "port" (toString port), .kv "bind-address" "0.0.0.0",
    .kv "log-error" log_file, .flag "skip-grant-tables" ]

/-- The `my.cnf` content `restart_mysql_with_auth` writes before the restart
(lines 230-241), line by line. -/
def restart_mysql_with_auth_cnf (data_dir socket_file pid_file log_file : String)
    (port : Nat) : List CnfLine :=
  [ .blank, .sectionHead "mysqld",
    .kv "datadir" data_dir, .kv "socket" socket_file, .kv "pid-file" pid_file,
    .kv "port" (toString port), .kv "bind-address" "0.0.0.0",
    .kv "log-error" log_file, .blank, .sectionHead "client",
    .kv "socket" socket_file ]

/-- The stream redirections of the `subprocess.Popen` call in
`start_mysql_server` (line 147): both streams go to `subprocess.DEVNULL`. -/
def start_popen_streams : SpawnInfo :=
  ⟨.devnull, .devnull⟩

/-- The readiness wait loop of `start_mysql_server` (lines 152-163):
`for i in range(40)`, each iteration probing with
`run_command(test_cmd, shell=True, check=False)` and declaring success when
`result is not None`.  Returns the attempt index at which the loop returned,
`none` when all 40 attempts were used up. -/
def startWaitGo (probe : Nat → CmdResult) : Nat → Nat → Option Nat
  | 0, _ => none
  | fuel + 1, i =>
    if (run_command (probe i) false true).isSome then some i
    else startWaitGo probe fuel (i + 1)

/-- `start_mysql_server` (lines 111-167): spawns the daemon, runs the wait
loop, and returns `(socket_file, port)` on BOTH exits — the success branch
(line 163) and the fallthrough after the loop (line 167), which only prints
a diagnostic.  The first component records where inside the loop success was
declared (`none` = the loop was exhausted). -/
def start_mysql_server (mysql_dir : String) (probe : Nat → CmdResult) :
    Option Nat × String × Nat :=
  (startWaitGo probe 40 0, mysql_dir ++ "/mysql.sock", 3306)

/-- One statement of the bootstrap SQL. -/
inductive SqlStmt
  | flushPrivileges
  | alterRootPassword (pwd : String)
  | createDatabase (name : String)
  | createUser (user host pwd : String)
  | grantAll (db : Option String) (user host : String) (withGrant : Bool)
  | selectUserHost (user : String)
  | showDatabases
deriving DecidableEq, Repr

/-- The `sql_commands` script `setup_database_and_user` writes and feeds to the
client (mysql_setup.py lines 178-190), statement by statement.  `grantAll none`
is a grant on `*.*` (all databases); `grantAll (some db)` is `db.*`. -/
def setup_sql_commands (db_name db_user db_password root_pwd : String) : List SqlStmt :=
  [ .flushPrivileges,
    .alterRootPassword root_pwd,
    .createUser "root" "%" root_pwd,
    .grantAll none "root" "%" true,
    .createDatabase db_name,
    .createUser db_user "localhost" db_password,
    .createUser db_user "%" db_password,
    .grantAll (some db_name) db_user "localhost" true,
    .grantAll (some db_name) db_user "%" true,
    .grantAll none db_user "%" true,
    .flushPrivileges ]

/-- `setup_database_and_user` (lines 169-211): runs the SQL file and a verify
query, both with `check=False`, and returns `True` unconditionally
(line 211). -/
def setup_database_and_user (setupRes verifyRes : CmdResult) : Bool :=
  let _ := run_command setupRes false true
  let _ := run_command verifyRes false true
  true

/-- The restart wait loop of `restart_mysql_with_auth` (lines 254-263):
`for i in range(30)`, breaking when `result` is truthy (a non-empty stripped
stdout; `None` and `""` are falsy in Python). -/
def restartWaitGo (probe : Nat → CmdResult) : Nat → Nat → Option Nat
  | 0, _ => none
  | fuel + 1, i =>
    if ((run_command (probe i) false true).getD "") ≠ "" then some i
    else restartWaitGo probe fuel (i + 1)

/-- `restart_mysql_with_auth` (lines 213-265): rewrites `my.cnf`, respawns the
daemon and waits; after the loop it prints success and returns normally whether
or not the probe ever answered. -/
def restart_mysql_with_auth (probe : Nat → CmdResult) : Option Nat :=
  restartWaitGo probe 30 0

/-- The bootstrap credentials as `main` resolves them (lines 357-360). -/
structure Credentials where
  db_name : String
  db_user : String
  db_password : String
  root_pwd : String
deriving DecidableEq, Repr

/-- `os.getenv(name, default)`. -/
def getenvD (env : Option String) (dflt : String) : String :=
  env.getD dflt

/-- Lines 357-360 of `main`: each value comes from the environment when set;
otherwise the name defaults are used and the passwords take a fresh
`generate_password()` draw (`genPwd`, `genRoot`).  Nothing reads the
previously persisted credentials artifact. -/
def mainCredentials (envDbName envDbUser envDbPassword envRootPwd : Option String)
    (genPwd genRoot : String) : Credentials :=
  { db_name := getenvD envDbName "myapp_db"
    db_user := getenvD envDbUser "appuser"
    db_password := getenvD envDbPassword genPwd
    root_pwd := getenvD envRootPwd genRoot }

/-- The `.mysql_credentials` artifact `save_credentials` writes
(lines 295-307), as its `export KEY="value"` pairs. -/
def credentialsArtifact (mysql_dir socket_file : String) (c : Credentials) :
    List (String × String) :=
  [ ("MYSQL_DIR", mysql_dir), ("MYSQL_SOCKET", socket_file),
    ("DB_HOST", "localhost"), ("DB_PORT", "3306"),
    ("DB_NAME", c.db_name), ("DB_USER", c.db_user),
    ("DB_PASSWORD", c.db_password), ("MYSQL_ROOT_PASSWORD", c.root_pwd),
    ("PATH", mysql_dir ++ "/bin:$PATH") ]

/-- The pipeline stages of `main` (lines 368-387), in call order. -/
inductive Stage
  | downloadStage
  | initStage
  | startStage
  | setupStage
  | restartStage
  | infoStage
  | saveStage
deriving DecidableEq, Repr

/-- Everything `main`'s behaviour depends on: directory/file state, the result
of each external command, the environment variables and the two fresh
`generate_password()` draws. -/
structure MainEnv where
  mysqlDirExists : Bool
  curlRes : CmdResult
  tarFileExists : Bool
  wgetRes : CmdResult
  tarRes : CmdResult
  dataDirExists : Bool
  dataDirNonEmpty : Bool
  initPopulates : Bool
  startProbe : Nat → CmdResult
  setupRes : CmdResult
  verifyRes : CmdResult
  restartProbe : Nat → CmdResult
  envDbName : Option String
  envDbUser : Option String
  envDbPassword : Option String
  envRootPwd : Option String
  genPwd : String
  genRoot : String

/-- What one run of `main` produces: the stages it executed, where the start
wait loop declared readiness (`none` = exhausted), the value
`setup_database_and_user` returned, the resolved credentials and the persisted
artifact. -/
structure MainResult where
  stages : List Stage
  startReady : Option Nat
  setupReturned : Bool
  creds : Credentials
  artifact : List (String × String)
deriving DecidableEq, Repr

/-- `main` (lines 348-394): a straight-line sequence of stage calls with no
conditional between them — the source has no branch that skips or aborts a
later stage, and none of the called functions raises (every command goes
through `run_command`, which catches `CalledProcessError`).  `infoStage` and
`saveStage` stand for `get_system_info` and `save_credentials`, which only
print / write the artifact recorded here. -/
def main (home : String) (env : MainEnv) : MainResult :=
  let creds := mainCredentials env.envDbName env.envDbUser env.envDbPassword
    env.envRootPwd env.genPwd env.genRoot
  let mysql_dir := download_mysql home env.mysqlDirExists env.curlRes
    env.tarFileExists env.wgetRes env.tarRes
  let _initOut := initialize_mysql mysql_dir ⟨env.dataDirExists, env.dataDirNonEmpty⟩
    env.initPopulates
  let startOut := start_mysql_server mysql_dir env.startProbe
  let setupOk := setup_database_and_user env.setupRes env.verifyRes
  let _restartOut := restart_mysql_with_auth env.restartProbe
  let artifact := credentialsArtifact mysql_dir startOut.2.1 creds
  { stages := [.downloadStage, .initStage, .startStage, .setupStage,
      .restartStage, .infoStage, .saveStage]
    startReady := startOut.1
    setupReturned := setupOk
    creds := creds
    artifact := artifact }

end MysqlSetup

namespace YourApp

/-! ## your_app.py -/

/-- What the readiness wait loop in `start_mysql` observes during iteration
`i`: whether `process.poll()` still reports the child alive at the top of the
iteration, whether the socket file exists, and whether the child is still
alive after the 3-second settle sleep taken once the socket is seen. -/
structure ProbeObs where
  alive : Bool
  socketExists : Bool
  aliveAfterSettle : Bool
deriving DecidableEq, Repr

/-- How `start_mysql`'s wait loop (lines 516-550) ends: `ready i` — the socket
appeared at iteration `i` and the process survived the settle check, so the
process handle is returned; `exitProcessDied i` — `check_mysql_process_alive`
found the child dead at iteration `i` and the script called `sys.exit(1)`;
`exitTimeout` — the 180 iterations ran out and the script called
`sys.exit(1)`. -/
inductive StartResult
  | ready (iter : Nat)
  | exitProcessDied (iter : Nat)
  | exitTimeout
deriving DecidableEq, Repr

/-- The body of `for i in range(180)` in `start_mysql` (lines 516-544): every
iteration first runs the dead-process check (`check_mysql_process_alive`,
exiting when the child died), only then looks for the socket file; when the
socket is present it sleeps 3 seconds, re-checks liveness, and returns. -/
def startWaitGo (obs : Nat → ProbeObs) : Nat → Nat → StartResult
  | 0, _ => .exitTimeout
  | fuel + 1, i =>
    if (obs i).alive = false then .exitProcessDied i
    else if (obs i).socketExists = true then
      if (obs i).aliveAfterSettle = false then .exitProcessDied i
      else .ready i
    else startWaitGo obs fuel (i + 1)

/-- The whole readiness wait of `start_mysql`: 180 one-second polls starting
at iteration 0. -/
def start_mysql_wait (obs : Nat → ProbeObs) : StartResult :=
  startWaitGo obs 180 0

/-- The handle `subprocess.Popen` returns for the spawned server. -/
structure ProcessHandle where
  pid : Nat
deriving DecidableEq, Repr

/-- The stream redirections `start_mysql` installs (lines 493-506): stdout and
stderr go to `mysql_stdout.log` / `mysql_stderr.log` under `TMP_DIR`, both
opened with `open(..., "a")` — append mode. -/
def start_mysql_spawn (tmpDir : String) : SpawnInfo :=
  ⟨.appendFile (tmpDir ++ "/mysql_stdout.log"),
   .appendFile (tmpDir ++ "/mysql_stderr.log")⟩

/-- `start_mysql` (lines 480-550): spawns the server with append-mode log
redirection, then runs the readiness wait loop before returning.  The process
handle is returned only on the loop's `ready` outcome; on `exitProcessDied`
and `exitTimeout` the script exits with status 1 instead of returning. -/
def start_mysql (pid : Nat) (tmpDir : String) (obs : Nat → ProbeObs) :
    SpawnInfo × Except Nat ProcessHandle :=
  (start_mysql_spawn tmpDir,
    match start_mysql_wait obs with
    | .ready _ => .ok ⟨pid⟩
    | .exitProcessDied _ => .error 1
    | .exitTimeout => .error 1)

/-- What `test_connection`'s loop did: whether it returned `True`, how many
probe attempts it made, and how many backoff sleeps it took. -/
structure ConnStats where
  ok : Bool
  attempts : Nat
  sleeps : Nat
deriving DecidableEq, Repr

/-- The body of `for attempt in range(8)` in `test_connection`
(lines 574-604): a successful attempt (`returncode == 0`) returns at once;
a failed attempt (non-zero exit, timeout or exception) sleeps 3 seconds only
when `attempt < 7`, i.e. never after the final attempt.  `results i = true`
means attempt `i` would succeed. -/
def connLoop (results : Nat → Bool) : Nat → Nat → ConnStats
  | 0, _ => ⟨false, 0, 0⟩
  | fuel + 1, attempt =>
    if results attempt then ⟨true, 1, 0⟩
    else
      let rest := connLoop results fuel (attempt + 1)
      ⟨rest.ok, rest.attempts + 1, rest.sleeps + (if attempt < 7 then 1 else 0)⟩

/-- `test_connection` (lines 553-607): 8 attempts starting at attempt 0;
returns `False` after the loop when none succeeded. -/
def test_connection (results : Nat → Bool) : ConnStats :=
  connLoop results 8 0

/-- The data-directory state `initialize_database` branches on: whether the
marker `DATA_DIR / "mysql"` (the server's system schema directory) exists. -/
structure InitFS where
  dataMarkerExists : Bool
deriving DecidableEq, Repr

/-- `initialize_database` (lines 322-375).  When the marker exists the
function returns at once — no bootstrap command, no filesystem change.
Otherwise it runs `mysqld --initialize-insecure`; on a non-zero exit it calls
`sys.exit(1)` (modelled as `.error 1`).  That a successful bootstrap populates
the data directory with the system schema (creating the `mysql` marker
subdirectory) is the server's own documented effect, outside this repository
(spec section 4.2: the bootstrap command populates `data_dir`).  The returned
`Bool` records whether the bootstrap command ran. -/
def initialize_database (bootstrapExit : Nat) (fs : InitFS) :
    Except Nat (InitFS × Bool) :=
  if fs.dataMarkerExists = true then .ok (fs, false)
  else if bootstrapExit = 0 then .ok (⟨true⟩, true)
  else .error 1

/-- `is_within_directory` from `extract_mysql` (lines 203-206):
`os.path.abspath(target).startswith(os.path.abspath(directory))` — a plain
string-prefix test with no trailing-separator handling. -/
def is_within_directory (directory target : PyStr) : Bool :=
  (abspath directory).isPrefixOf (abspath target)

/-- `os.path.join(INSTALL_DIR, member.name)` (line 209). -/
def member_path (installDir name : PyStr) : PyStr :=
  pyJoin installDir name

/-- The member-checking loop of `extract_mysql` (lines 208-211): raises
`Exception("Unsafe archive member detected")` at the first member that fails
`is_within_directory`, before anything is extracted. -/
def checkMembers (installDir : PyStr) : List PyStr → Except String Unit
  | [] => .ok ()
  | m :: rest =>
    if is_within_directory installDir (member_path installDir m) then
      checkMembers installDir rest
    else .error "Unsafe archive member detected"

/-- Where `tar.extractall(path=INSTALL_DIR)` writes a member once the check
passed: the member name joined under the install root, resolved. -/
def extractTarget (installDir name : PyStr) : PyStr :=
  abspath (member_path installDir name)

/-- `extract_mysql`'s check-then-extract core (lines 201-212): all members are
checked first; only when every one passes does `extractall` write them (the
returned list is the resolved write targets).  On a failed check nothing is
written. -/
def extract_mysql (installDir : PyStr) (members : List PyStr) :
    Except String (List PyStr) :=
  match checkMembers installDir members with
  | .error e => .error e
  | .ok _ => .ok (members.map (extractTarget installDir))

/-- Semantic containment of an already-resolved path in the install root: the
root itself, or a path below it (root followed by a separator).  This — not a
bare string prefix — is what "resolves inside the install root" means. -/
def withinRoot (root target : PyStr) : Bool :=
  target = abspath root || (abspath root ++ ['/']).isPrefixOf target

/-- The bootstrap SQL `setup_database` issues (your_app.py lines 622-629),
statement by statement, in the shared statement model. -/
def setup_database_sql (dbName dbUser dbPassword : String) : List MysqlSetup.SqlStmt :=
  [ .createDatabase dbName,
    .createUser dbUser "%" dbPassword,
    .grantAll (some dbName) dbUser "%" false,
    .flushPrivileges,
    .selectUserHost dbUser,
    .showDatabases ]

end YourApp

/-! ## Concrete inputs used by the claims' closed statements -/

/-- A readiness-probe trace in which the probe command fails (exits 1 with
empty output) on every attempt. -/
def probeAllFail : Nat → MysqlSetup.CmdResult := fun _ => ⟨1, ""⟩

/-- A pipeline environment in which the archive-extraction command and every
readiness probe of both wait loops exit non-zero, the environment variables
are unset, and nothing is installed yet. -/
def failingPipelineEnv : MysqlSetup.MainEnv :=
  { mysqlDirExists := false
    curlRes := ⟨1, ""⟩
    tarFileExists := true
    wgetRes := ⟨1, ""⟩
    tarRes := ⟨1, ""⟩
    dataDirExists := false
    dataDirNonEmpty := false
    initPopulates := false
    startProbe := probeAllFail
    setupRes := ⟨1, ""⟩
    verifyRes := ⟨1, ""⟩
    restartProbe := probeAllFail
    envDbName := none
    envDbUser := none
    envDbPassword := none
    envRootPwd := none
    genPwd := "gen-pw"
    genRoot := "gen-root" }

/-- A first controller run with all four credential environment variables
unset: `generate_password()` draws the run-1 values. -/
def rerunEnv1 : MysqlSetup.MainEnv :=
  { failingPipelineEnv with genPwd := "random-pw-run1", genRoot := "random-root-run1" }

/-- A rerun of the controller with the same unset environment variables:
`generate_password()` draws fresh run-2 values (the persisted artifact from
run 1 is not an input of `main` — the source never reads it back). -/
def rerunEnv2 : MysqlSetup.MainEnv :=
  { failingPipelineEnv with genPwd := "random-pw-run2", genRoot := "random-root-run2" }

/-! ## Theorems for the claims -/

set_option maxRecDepth 4000

/-- Helper for claim C2: once the server process is dead from iteration `t`
on, and the socket never coexists with a live process, the wait loop of
`your_app.py`'s `start_mysql` ends in the dead-process exit at some
iteration, provided `t` is inside the attempt bound. -/
theorem startWaitGo_dead (obs : Nat → YourApp.ProbeObs) (t : Nat)
    (hdead : ∀ j, t ≤ j → (obs j).alive = false)
    (hsock : ∀ j, (obs j).socketExists = true → (obs j).alive = false) :
    ∀ fuel i, i ≤ t → t < i + fuel →
      ∃ j, YourApp.startWaitGo obs fuel i = .exitProcessDied j := by
  intro fuel
  induction fuel with
  | zero => intro i hi hlt; omega
  | succ n ih =>
    intro i hi hlt
    by_cases ha : (obs i).alive = false
    · exact ⟨i, by simp [YourApp.startWaitGo, ha]⟩
    · have halive : (obs i).alive = true := by
        cases h : (obs i).alive
        · exact absurd h ha
        · rfl
      have hsocki : (obs i).socketExists = false := by
        cases h : (obs i).socketExists
        · rfl
        · have := hsock i h
          rw [this] at halive
          exact absurd halive (by simp)
      have hit : i < t := by
        rcases Nat.lt_or_ge i t with h | h
        · exact h
        · exact absurd (hdead i h) ha
      have hrec := ih (i + 1) (by omega) (by omega)
      rcases hrec with ⟨j, hj⟩
      refine ⟨j, ?_⟩
      simpa [YourApp.startWaitGo, halive, hsocki] using hj

/-- Claim C1: every stage of `mysql_setup.py`'s pipeline runs in every
execution — including one in which the extraction command and every readiness
probe exit non-zero.  The source's propagation claim ("a failed stage aborts
the pipeline; if the wait loop exhausts its attempts the controller does not
reach `setup_database_and_user`") is contradicted: `main` is straight-line,
`start_mysql_server` returns `(socket_file, port)` even on its timeout
fallthrough, its loop even declares readiness on the first failed probe, and
`setup_database_and_user` is reached and returns `True` unconditionally. -/
theorem C1_pipeline_runs_all_stages_despite_failures :
    (∀ (home : String) (env : MysqlSetup.MainEnv),
      (MysqlSetup.main home env).stages =
        [.downloadStage, .initStage, .startStage, .setupStage,
          .restartStage, .infoStage, .saveStage]) ∧
    (∀ i, (failingPipelineEnv.startProbe i).exitCode = 1 ∧
      failingPipelineEnv.tarRes.exitCode = 1) ∧
    MysqlSetup.Stage.setupStage ∈ (MysqlSetup.main "/home/user" failingPipelineEnv).stages ∧
    (MysqlSetup.main "/home/user" failingPipelineEnv).setupReturned = true ∧
    (MysqlSetup.main "/home/user" failingPipelineEnv).startReady = some 0 :=
  ⟨fun _ _ => rfl, fun _ => ⟨rfl, rfl⟩, by decide, rfl, rfl⟩

/-- Claim C2: in `your_app.py`'s readiness prober, if the launched server
process exits (dead from some iteration `t` inside the 180-attempt bound, and
the socket file never coexists with a live process) then the prober takes the
FAILED("process exited") exit and never returns the ready outcome; the
dead-process check runs at the top of every iteration, before the socket
check. -/
theorem C2_prober_fails_when_process_dies_before_socket
    (obs : Nat → YourApp.ProbeObs) (t : Nat) (ht : t < 180)
    (hdead : ∀ j, t ≤ j → (obs j).alive = false)
    (hsock : ∀ j, (obs j).socketExists = true → (obs j).alive = false) :
    (∃ j, YourApp.start_mysql_wait obs = .exitProcessDied j) ∧
      ∀ k, YourApp.start_mysql_wait obs ≠ .ready k := by
  have h : ∃ j, YourApp.start_mysql_wait obs = .exitProcessDied j :=
    startWaitGo_dead obs t hdead hsock 180 0 (by omega) (by omega)
  refine ⟨h, ?_⟩
  rcases h with ⟨j, hj⟩
  intro k hk
  rw [hj] at hk
  cases hk

/-- Witness for claim C2 at a concrete trace: a stub process that is already
dead at iteration 0 and never produces a socket. -/
theorem C2_witness :
    ((0 : Nat) < 180) ∧
    ((∃ j, YourApp.start_mysql_wait (fun _ => ⟨false, false, false⟩) =
        .exitProcessDied j) ∧
      ∀ k, YourApp.start_mysql_wait (fun _ => ⟨false, false, false⟩) ≠ .ready k) :=
  ⟨by omega, C2_prober_fails_when_process_dies_before_socket
    (fun _ => ⟨false, false, false⟩) 0 (by omega) (fun _ _ => rfl) (fun _ h => rfl)⟩

/-- Helper for claim C3: the member-checking loop errors whenever some member
fails the string-prefix containment check. -/
theorem checkMembers_error_of_bad (installDir : PyStr) :
    ∀ (members : List PyStr),
      (∃ m ∈ members,
        YourApp.is_within_directory installDir (YourApp.member_path installDir m) = false) →
      YourApp.checkMembers installDir members = .error "Unsafe archive member detected" := by
  intro members
  induction members with
  | nil => rintro ⟨m, hm, -⟩; cases hm
  | cons a as ih =>
    rintro ⟨m, hm, hbad⟩
    by_cases ha : YourApp.is_within_directory installDir (YourApp.member_path installDir a) = true
    · have hmas : m ∈ as := by
        rcases List.mem_cons.mp hm with rfl | h'
        · rw [ha] at hbad; cases hbad
        · exact h'
      have := ih ⟨m, hmas, hbad⟩
      simpa [YourApp.checkMembers, ha] using this
    · simp [YourApp.checkMembers, Bool.eq_false_iff.mpr ha]

/-- Counterexample to claim C3 as stated: the archive member
`../mysql_evil/pwned` resolves OUTSIDE the install root `/home/user/mysql`
(to `/home/user/mysql_evil/pwned`), yet `extract_mysql` raises no error and
extracts it there — the guard is a bare `startswith` string-prefix test, which
a sibling directory sharing the root's name as a prefix slips past. -/
theorem C3_prefix_check_misses_sibling_escape :
    YourApp.withinRoot ("/home/user/mysql").data
        (YourApp.extractTarget ("/home/user/mysql").data ("../mysql_evil/pwned").data) = false ∧
    YourApp.extract_mysql ("/home/user/mysql").data [("../mysql_evil/pwned").data] =
      .ok [("/home/user/mysql_evil/pwned").data] :=
  ⟨by decide, rfl⟩

/-- Claim C3 amended: whenever some member fails the `is_within_directory`
string-prefix check (in particular a member `../../etc/passwd`), extraction
fails with the "Unsafe archive member detected" error before any member is
written — the error branch of `extract_mysql` produces no write. -/
theorem C3_extraction_rejects_nonprefix_members (installDir : PyStr)
    (members : List PyStr)
    (h : ∃ m ∈ members,
      YourApp.is_within_directory installDir (YourApp.member_path installDir m) = false) :
    YourApp.extract_mysql installDir members = .error "Unsafe archive member detected" := by
  rw [YourApp.extract_mysql, checkMembers_error_of_bad installDir members h]

/-- Witness for the amended claim C3: an archive holding `../../etc/passwd`
under install root `/home/user/mysql` is rejected with nothing written. -/
theorem C3_witness :
    (∃ m ∈ [("../../etc/passwd").data],
      YourApp.is_within_directory ("/home/user/mysql").data
        (YourApp.member_path ("/home/user/mysql").data m) = false) ∧
    YourApp.extract_mysql ("/home/user/mysql").data [("../../etc/passwd").data] =
      .error "Unsafe archive member detected" :=
  ⟨⟨("../../etc/passwd").data, by decide, by decide⟩,
    C3_extraction_rejects_nonprefix_members _ _
      ⟨("../../etc/passwd").data, by decide, by decide⟩⟩

/-- Counterexample to claim C4 as stated: run 1 of `main` with unset
credential environment variables persists the freshly drawn password
`random-pw-run1` in the artifact; a rerun with the same unset environment does
not reuse it — it uses the rerun's fresh draws (`random-pw-run2`,
`random-root-run2`), regenerating both passwords. -/
theorem C4_rerun_regenerates_credentials :
    (MysqlSetup.main "/home/user" rerunEnv1).artifact.lookup "DB_PASSWORD" =
      some "random-pw-run1" ∧
    (MysqlSetup.main "/home/user" rerunEnv2).creds.db_password = "random-pw-run2" ∧
    (MysqlSetup.main "/home/user" rerunEnv2).creds.root_pwd = "random-root-run2" ∧
    ("random-pw-run2" : String) ≠ "random-pw-run1" :=
  ⟨rfl, rfl, rfl, by decide⟩

/-- Claim C4 amended: each run's credentials come from the environment when
set and otherwise from that run's own fresh `generate_password()` draw; the
persisted artifact is never consulted, so two runs with unset variables each
use their own draw. -/
theorem C4_credentials_from_env_or_fresh_draw (n u r : Option String)
    (g1 gr1 g2 gr2 : String) :
    (MysqlSetup.mainCredentials n u none r g1 gr1).db_password = g1 ∧
    (MysqlSetup.mainCredentials n u none r g2 gr2).db_password = g2 ∧
    (MysqlSetup.mainCredentials n u none none g1 gr1).root_pwd = gr1 ∧
    (∀ s, (MysqlSetup.mainCredentials n u (some s) r g1 gr1).db_password = s) :=
  ⟨rfl, rfl, rfl, fun _ => rfl⟩

/-- Claim C5: when every attempt of `test_connection`'s functional probe
fails, the loop makes exactly 8 attempts (not fewer, not more), sleeps between
consecutive attempts but not after the final one (7 sleeps), and reports
failure. -/
theorem C5_connection_probe_exactly_eight_attempts (results : Nat → Bool)
    (h : ∀ i, i < 8 → results i = false) :
    YourApp.test_connection results = ⟨false, 8, 7⟩ := by
  simp [YourApp.test_connection, YourApp.connLoop,
    h 0 (by omega), h 1 (by omega), h 2 (by omega), h 3 (by omega),
    h 4 (by omega), h 5 (by omega), h 6 (by omega), h 7 (by omega)]

/-- Witness for claim C5 at the concrete always-failing probe. -/
theorem C5_witness :
    (∀ i, i < 8 → (fun _ => false) i = false) ∧
    YourApp.test_connection (fun _ => false) = ⟨false, 8, 7⟩ :=
  ⟨fun _ _ => rfl,
    C5_connection_probe_exactly_eight_attempts (fun _ => false) (fun _ _ => rfl)⟩

/-- Claim C6: the Initializer is idempotent.  In `your_app.py`, when the
system-schema marker exists the call is a no-op (no bootstrap, state
unchanged); after a successful first call on a fresh directory the second call
is such a no-op.  In the `mysql_setup.py` variant, an existing non-empty data
directory is likewise returned untouched with no bootstrap command run. -/
theorem C6_initializer_idempotent (fs : YourApp.InitFS)
    (hfs : fs.dataMarkerExists = true) (e e2 : Nat) (md : String)
    (st : MysqlSetup.DataDirState) (h1 : st.dirExists = true)
    (h2 : st.nonEmpty = true) (p : Bool) :
    YourApp.initialize_database e fs = .ok (fs, false) ∧
    (YourApp.initialize_database 0 ⟨false⟩ = .ok (⟨true⟩, true) ∧
      YourApp.initialize_database e2 ⟨true⟩ = .ok (⟨true⟩, false)) ∧
    MysqlSetup.initialize_mysql md st p = (md ++ "/data", st, false) := by
  refine ⟨?_, ⟨rfl, rfl⟩, ?_⟩
  · simp [YourApp.initialize_database, hfs]
  · simp [MysqlSetup.initialize_mysql, h1, h2]

/-- Witness for claim C6 at concrete states: a marked data directory, a fresh
one bootstrapped and re-entered, and a non-empty variant directory. -/
theorem C6_witness :
    ((⟨true⟩ : YourApp.InitFS).dataMarkerExists = true ∧
      (⟨true, true⟩ : MysqlSetup.DataDirState).dirExists = true ∧
      (⟨true, true⟩ : MysqlSetup.DataDirState).nonEmpty = true) ∧
    (YourApp.initialize_database 5 ⟨true⟩ = .ok (⟨true⟩, false) ∧
      (YourApp.initialize_database 0 ⟨false⟩ = .ok (⟨true⟩, true) ∧
        YourApp.initialize_database 7 ⟨true⟩ = .ok (⟨true⟩, false)) ∧
      MysqlSetup.initialize_mysql "/home/user/mysql" ⟨true, true⟩ false =
        ("/home/user/mysql" ++ "/data", ⟨true, true⟩, false)) :=
  ⟨⟨rfl, rfl, rfl⟩,
    C6_initializer_idempotent ⟨true⟩ rfl 5 7 "/home/user/mysql" ⟨true, true⟩ rfl rfl false⟩

/-- Claim C7: contrary to the claim, `mysql_setup.py`'s bootstrap script
ALWAYS contains a blanket grant `GRANT ALL PRIVILEGES ON *.*` to the
application user (line 188), for every invocation; only `your_app.py`'s
`setup_database` variant is scoped to the single configured database. -/
theorem C7_bootstrap_grants_blanket_privileges
    (db_name db_user db_password root_pwd : String) :
    MysqlSetup.SqlStmt.grantAll none db_user "%" true ∈
      MysqlSetup.setup_sql_commands db_name db_user db_password root_pwd ∧
    (∀ wg : Bool, MysqlSetup.SqlStmt.grantAll none db_user "%" wg ∉
      YourApp.setup_database_sql db_name db_user db_password) := by
  constructor
  · simp [MysqlSetup.setup_sql_commands]
  · intro wg
    simp [YourApp.setup_database_sql]

/-- Counterexample to claim C8 as stated: on a start whose readiness wait
never sees the socket, `your_app.py`'s `start_mysql` does not return the
process handle at all — it blocks through the wait loop and exits with status
1 — and the `mysql_setup.py` variant redirects the child's stdout and stderr
to DEVNULL, not to append-mode log files. -/
theorem C8_launcher_blocks_and_variant_uses_devnull :
    (YourApp.start_mysql 7 "/tmp-dir" (fun _ => ⟨true, false, true⟩)).2 = .error 1 ∧
    MysqlSetup.start_popen_streams.stdoutTarget = .devnull ∧
    MysqlSetup.start_popen_streams.stderrTarget = .devnull :=
  ⟨rfl, rfl, rfl⟩

/-- Claim C8 amended: `your_app.py`'s `start_mysql` spawns the server with
stdout/stderr redirected to dedicated log files opened in append mode, but
then blocks in the readiness wait: the process handle is returned exactly when
the wait reaches the ready outcome, and otherwise the script exits with
status 1. -/
theorem C8_launcher_spawn_and_return_behaviour (pid : Nat) (tmpDir : String)
    (obs : Nat → YourApp.ProbeObs) :
    (YourApp.start_mysql pid tmpDir obs).1 =
      ⟨.appendFile (tmpDir ++ "/mysql_stdout.log"),
        .appendFile (tmpDir ++ "/mysql_stderr.log")⟩ ∧
    ((∃ i, YourApp.start_mysql_wait obs = .ready i) →
      (YourApp.start_mysql pid tmpDir obs).2 = .ok ⟨pid⟩) ∧
    ((∀ i, YourApp.start_mysql_wait obs ≠ .ready i) →
      (YourApp.start_mysql pid tmpDir obs).2 = .error 1) := by
  refine ⟨rfl, ?_, ?_⟩
  · rintro ⟨i, hi⟩
    simp [YourApp.start_mysql, hi]
  · intro h
    cases hw : YourApp.start_mysql_wait obs with
    | ready k => exact absurd hw (h k)
    | exitProcessDied k => simp [YourApp.start_mysql, hw]
    | exitTimeout => simp [YourApp.start_mysql, hw]

/-- Claim C9: `run_command` with `check=False` (and the default
`capture=True`, as at the polling call site) returns the command's stripped
stdout for every completed command regardless of exit code; with `check=True`
it returns `None` exactly when the command exits non-zero.  Consequently the
readiness test `result is not None` in `start_mysql_server`'s polling loop is
satisfied on the very first attempt whatever the probe's exit codes. -/
theorem C9_run_command_check_false_is_never_none :
    (∀ res : MysqlSetup.CmdResult,
      MysqlSetup.run_command res false true = some (pyStrip res.stdout)) ∧
    (∀ res : MysqlSetup.CmdResult,
      (MysqlSetup.run_command res true true = none ↔ res.exitCode ≠ 0)) ∧
    (∀ (mysql_dir : String) (probe : Nat → MysqlSetup.CmdResult),
      (MysqlSetup.start_mysql_server mysql_dir probe).1 = some 0) := by
  refine ⟨fun res => ?_, fun res => ?_, fun md probe => ?_⟩
  · simp [MysqlSetup.run_command]
  · by_cases h : res.exitCode = 0 <;> simp [MysqlSetup.run_command, h]
  · simp [MysqlSetup.start_mysql_server, MysqlSetup.startWaitGo, MysqlSetup.run_command]

/-- Claim C10: for every parameterisation, the configuration artifact written
for the first server start contains both `skip-grant-tables` and
`bind-address=0.0.0.0`, and the configuration written by the later restart
keeps `bind-address=0.0.0.0` but drops `skip-grant-tables`. -/
theorem C10_first_start_config_disables_auth_on_all_interfaces
    (d s p l : String) (port : Nat) :
    MysqlSetup.CnfLine.flag "skip-grant-tables" ∈
      MysqlSetup.start_mysql_server_cnf d s p l port ∧
    MysqlSetup.CnfLine.kv "bind-address" "0.0.0.0" ∈
      MysqlSetup.start_mysql_server_cnf d s p l port ∧
    MysqlSetup.CnfLine.flag "skip-grant-tables" ∉
      MysqlSetup.restart_mysql_with_auth_cnf d s p l port ∧
    MysqlSetup.CnfLine.kv "bind-address" "0.0.0.0" ∈
      MysqlSetup.restart_mysql_with_auth_cnf d s p l port := by
  refine ⟨?_, ?_, ?_, ?_⟩ <;>
    simp [MysqlSetup.start_mysql_server_cnf, MysqlSetup.restart_mysql_with_auth_cnf]
